import Mathlib

/-!
Shallow embedding of the AI career-counselling web application
(`database.py`: class `CareerCounselingDB` over SQLite; `app.py`: Flask
routes and the RAG answer pipeline).

Modelling conventions:
* SQLite tables become Lean lists in insertion (rowid) order; AUTOINCREMENT
  ids and the random UUID session tokens become fresh counters in the state.
* `CURRENT_TIMESTAMP` becomes a strictly increasing logical clock `now`
  (wall-clock second granularity and same-second ties are abstracted away).
* SQL `=` against a possibly-NULL column follows SQL three-valued logic:
  comparison with NULL never matches (`sqlEq`).
* `json.dumps`/`json.loads` on the interests list are modelled by an
  executable serializer and parser for JSON arrays of strings, with the
  named escapes; `ensure_ascii` \uXXXX escaping of non-ASCII and other
  control characters is elided (it does not affect the round-trip shape).
* Python exceptions from external calls become `Except` values.
-/

/-- Python `str.strip()`: remove leading and trailing whitespace. -/
def pyStrip (s : String) : String :=
  ⟨((s.data.dropWhile Char.isWhitespace).reverse.dropWhile Char.isWhitespace).reverse⟩

/-- SQL equality between two nullable text values: NULL compares equal to
nothing (three-valued logic collapsed to Bool, as in a WHERE clause). -/
def sqlEq (a b : Option String) : Bool :=
  match a, b with
  | some x, some y => x == y
  | _, _ => false

/-- SQL equality between a nullable text column and a non-null bound value. -/
def sqlEqVal (column : Option String) (v : String) : Bool :=
  match column with
  | some x => x == v
  | none => false

/-- Python truthiness of an optional integer (`if user_id:`): `None` and `0`
are falsy. -/
def pyTruthyNat (x : Option Nat) : Bool :=
  match x with
  | some n => n != 0
  | none => false

/-! ### JSON serialization of a list of strings (`json.dumps` / `json.loads`) -/

/-- JSON escaping of one character as in `json.dumps`: the two mandatory
escapes and the named control escapes. -/
def escape_char (c : Char) : List Char :=
  if c = '"' then ['\\', '"']
  else if c = '\\' then ['\\', '\\']
  else if c = '\n' then ['\\', 'n']
  else if c = '\t' then ['\\', 't']
  else if c = '\r' then ['\\', 'r']
  else if c = '\x08' then ['\\', 'b']
  else if c = '\x0c' then ['\\', 'f']
  else [c]

/-- Escape a character sequence. -/
def encode_chars : List Char → List Char
  | [] => []
  | c :: cs => escape_char c ++ encode_chars cs

/-- One JSON string literal, quotes included. -/
def encode_item (s : String) : List Char :=
  '"' :: (encode_chars s.data ++ ['"'])

/-- The `, `-separated continuation of a JSON array (Python's default
separator is a comma followed by one space). -/
def encode_tail : List String → List Char
  | [] => []
  | s :: ss => ',' :: ' ' :: (encode_item s ++ encode_tail ss)

/-- `json.dumps` of a list of strings: `[]` or `["a", "b"]`. -/
def json_dumps (l : List String) : String :=
  match l with
  | [] => ⟨['[', ']']⟩
  | s :: ss => ⟨'[' :: (encode_item s ++ encode_tail ss ++ [']'])⟩

/-- Inverse of the named JSON escapes. -/
def unescape_char (c : Char) : Option Char :=
  if c = '"' then some '"'
  else if c = '\\' then some '\\'
  else if c = 'n' then some '\n'
  else if c = 't' then some '\t'
  else if c = 'r' then some '\r'
  else if c = 'b' then some '\x08'
  else if c = 'f' then some '\x0c'
  else none

/-- JSON insignificant whitespace. -/
def json_ws (c : Char) : Bool :=
  c = ' ' || c = '\t' || c = '\n' || c = '\r'

/-- Drop insignificant whitespace. -/
def skip_ws (cs : List Char) : List Char :=
  cs.dropWhile json_ws

/-- Parse the body of a JSON string literal (the opening quote already
consumed) up to its closing quote; returns the decoded characters and the
remaining input. -/
def parse_string_body : List Char → Option (List Char × List Char)
  | [] => none
  | c :: rest =>
    if c = '"' then some ([], rest)
    else if c = '\\' then
      match rest with
      | [] => none
      | e :: rest2 =>
        match unescape_char e with
        | none => none
        | some d => (parse_string_body rest2).map (fun p => (d :: p.1, p.2))
    else (parse_string_body rest).map (fun p => (c :: p.1, p.2))

/-- Parse the remainder of a JSON array after its first string element:
either a closing bracket, or a comma followed by the next string element.
`fuel` bounds the number of further elements. -/
def parse_rest_items (fuel : Nat) (cs : List Char) : Option (List String × List Char) :=
  match skip_ws cs with
  | [] => none
  | c :: rest =>
    if c = ']' then some ([], rest)
    else if c = ',' then
      match skip_ws rest with
      | [] => none
      | c2 :: rest2 =>
        if c2 = '"' then
          match parse_string_body rest2 with
          | some (item, rest3) =>
            match fuel with
            | 0 => none
            | n + 1 =>
              (parse_rest_items n rest3).map (fun p => ((⟨item⟩ : String) :: p.1, p.2))
          | none => none
        else none
    else none

/-- `json.loads` restricted to JSON arrays of strings (the only shape this
application ever stores in the `interests` column). -/
def json_loads_strings (s : String) : Option (List String) :=
  match s.data with
  | [] => none
  | c :: rest =>
    if c = '[' then
      match skip_ws rest with
      | [] => none
      | c2 :: rest2 =>
        if c2 = ']' then (if skip_ws rest2 = [] then some [] else none)
        else if c2 = '"' then
          match parse_string_body rest2 with
          | none => none
          | some (first, rest3) =>
            match parse_rest_items s.data.length rest3 with
            | none => none
            | some (items, rest4) =>
              if skip_ws rest4 = [] then some ((⟨first⟩ : String) :: items) else none
        else none
    else none

/-- The `interests` column as read back by the store:
`json.loads(x) if x else []`. A stored value that is not valid JSON is
unreachable (the store only ever writes `json.dumps` output), so the parser
failure defaults to the empty list rather than a raised exception. -/
def load_interests (stored : Option String) : List String :=
  match stored with
  | none => []
  | some s => if s = "" then [] else (json_loads_strings s).getD []

/-! ### Persistence store (`database.py`, class `CareerCounselingDB`) -/

/-- A row of the `users` table. -/
structure User where
  id : Nat
  username : String
  email : String
  password_hash : String
  full_name : String
  phone_number : String
  educational_background : Option String
  interests : Option String
  created_at : Nat
deriving DecidableEq

/-- A row of the `chat_sessions` table. -/
structure ChatSession where
  session_id : String
  user_id : Nat
  session_name : String
  created_at : Nat
  updated_at : Nat
deriving DecidableEq

/-- A row of the `chat_messages` table. `session_id` is nullable: the
schema declares the column without NOT NULL and the application can bind
Python `None` to it. -/
structure ChatMessage where
  id : Nat
  session_id : Option String
  user_id : Nat
  message_type : String
  message_text : String
  timestamp : Nat
deriving DecidableEq

/-- The database state: the three tables in rowid order, the AUTOINCREMENT
counters, a counter standing in for `uuid.uuid4()` freshness, and the
logical clock standing in for `CURRENT_TIMESTAMP`. -/
structure DB where
  users : List User
  sessions : List ChatSession
  messages : List ChatMessage
  next_user_id : Nat
  next_message_id : Nat
  next_session_token : Nat
  now : Nat
deriving DecidableEq

/-- A freshly initialised database file (`init_db` creates empty tables;
SQLite AUTOINCREMENT starts at 1). -/
def emptyDB : DB :=
  { users := [], sessions := [], messages := [],
    next_user_id := 1, next_message_id := 1, next_session_token := 1, now := 0 }

namespace CareerCounselingDB

/-- `hash_password`: the SHA-256 hex digest is modelled as an injective
deterministic tagging; the claims depend only on determinism of the digest. -/
def hash_password (password : String) : String :=
  "sha256:" ++ password

/-- `create_session`: insert a chat session under a fresh token (the
`uuid.uuid4()` draw is modelled by the freshness counter); both timestamps
default to the current time. Returns the new session id. -/
def create_session (user_id : Nat) (session_name : String) (db : DB) : String × DB :=
  let session_id := "uuid-" ++ toString db.next_session_token
  let s : ChatSession :=
    { session_id := session_id, user_id := user_id, session_name := session_name,
      created_at := db.now, updated_at := db.now }
  (session_id,
   { db with sessions := db.sessions ++ [s],
             next_session_token := db.next_session_token + 1,
             now := db.now + 1 })

/-- `create_user`: INSERT into `users`; a UNIQUE violation on username or
email raises `sqlite3.IntegrityError`, which is caught and surfaced as
`None` with nothing committed. On success a default chat session is also
created and the fresh rowid returned. -/
def create_user (username email password full_name phone_number : String) (db : DB) :
    Option Nat × DB :=
  let password_hash := hash_password password
  if db.users.any (fun u => u.username == username || u.email == email) then
    (none, db)
  else
    let user_id := db.next_user_id
    let u : User :=
      { id := user_id, username := username, email := email,
        password_hash := password_hash, full_name := full_name,
        phone_number := phone_number, educational_background := none,
        interests := none, created_at := db.now }
    let db1 : DB :=
      { db with users := db.users ++ [u], next_user_id := user_id + 1,
                now := db.now + 1 }
    let db2 := (create_session user_id "Career Counseling Session" db1).2
    (some user_id, db2)

/-- The dict returned by `verify_user` / `get_user_by_id`. -/
structure UserView where
  id : Nat
  username : String
  email : String
  full_name : String
  phone_number : String
  educational_background : Option String
  interests : List String
deriving DecidableEq

/-- Build the returned dict from a `users` row. -/
def userView (u : User) : UserView :=
  { id := u.id, username := u.username, email := u.email,
    full_name := u.full_name, phone_number := u.phone_number,
    educational_background := u.educational_background,
    interests := load_interests u.interests }

/-- `verify_user`: SELECT the first row matching the username and the
password hash; `None` when no row matches. -/
def verify_user (username password : String) (db : DB) : Option UserView :=
  let password_hash := hash_password password
  (db.users.find? (fun u => u.username == username && u.password_hash == password_hash)).map
    userView

/-- `get_user_by_id`: SELECT the first row with the given id. -/
def get_user_by_id (user_id : Nat) (db : DB) : Option UserView :=
  (db.users.find? (fun u => u.id == user_id)).map userView

/-- `save_message`: INSERT the message (binding whatever session id the
caller holds, possibly NULL), then UPDATE the session's `updated_at` to the
current time — the UPDATE matches no row when the bound session id is NULL
or absent. -/
def save_message (session_id : Option String) (user_id : Nat)
    (message_type message_text : String) (db : DB) : DB :=
  let m : ChatMessage :=
    { id := db.next_message_id, session_id := session_id, user_id := user_id,
      message_type := message_type, message_text := message_text,
      timestamp := db.now }
  { db with
    messages := db.messages ++ [m],
    next_message_id := db.next_message_id + 1,
    sessions := db.sessions.map (fun s =>
      if sqlEqVal session_id s.session_id then { s with updated_at := db.now } else s),
    now := db.now + 1 }

/-- The dict returned per row by `get_user_sessions`. -/
structure SessionView where
  session_id : String
  session_name : String
  created_at : Nat
  updated_at : Nat
deriving DecidableEq

/-- `ORDER BY updated_at DESC` as a relation on session rows. -/
def updGe (a b : ChatSession) : Prop := b.updated_at ≤ a.updated_at

instance : DecidableRel updGe := fun _ _ => Nat.decLe _ _

instance : IsTotal ChatSession updGe := ⟨fun a b => Nat.le_total b.updated_at a.updated_at⟩

instance : IsTrans ChatSession updGe := ⟨fun _ _ _ h1 h2 => Nat.le_trans h2 h1⟩

/-- `get_user_sessions`: SELECT the user's sessions ORDER BY `updated_at`
DESC (a stable sort over rowid order). -/
def get_user_sessions (user_id : Nat) (db : DB) : List SessionView :=
  (((db.sessions.filter (fun s => s.user_id == user_id)).insertionSort updGe).map
    (fun s => ({ session_id := s.session_id, session_name := s.session_name,
                 created_at := s.created_at, updated_at := s.updated_at } : SessionView)))

/-- The dict returned per row by `get_chat_history`. -/
structure MessageView where
  type : String
  text : String
  timestamp : Nat
deriving DecidableEq

/-- `ORDER BY timestamp ASC` as a relation on message rows. -/
def tsLe (a b : ChatMessage) : Prop := a.timestamp ≤ b.timestamp

instance : DecidableRel tsLe := fun _ _ => Nat.decLe _ _

instance : IsTotal ChatMessage tsLe := ⟨fun a b => Nat.le_total a.timestamp b.timestamp⟩

instance : IsTrans ChatMessage tsLe := ⟨fun _ _ _ h1 h2 => Nat.le_trans h1 h2⟩

/-- Build the returned dict from a `chat_messages` row. -/
def msgView (m : ChatMessage) : MessageView :=
  { type := m.message_type, text := m.message_text, timestamp := m.timestamp }

/-- `get_chat_history`: SELECT messages of the given session AND user,
ORDER BY `timestamp` ASC (a stable sort over rowid order). SQL equality
against the nullable `session_id` column never matches a NULL bind. -/
def get_chat_history (session_id : Option String) (user_id : Nat) (db : DB) :
    List MessageView :=
  ((db.messages.filter (fun m => sqlEq m.session_id session_id && m.user_id == user_id)).insertionSort
    tsLe).map msgView

/-- `update_user_profile`: UPDATE the background and the serialized
interests of every row with the given id (the id is a primary key, so at
most one row in any state the application reaches). -/
def update_user_profile (user_id : Nat) (educational_background : String)
    (interests : List String) (db : DB) : DB :=
  { db with
    users := db.users.map (fun u =>
      if u.id == user_id then
        { u with educational_background := some educational_background,
                 interests := some (json_dumps interests) }
      else u),
    now := db.now + 1 }

end CareerCounselingDB

/-! ### Web front end and answer generator (`app.py`) -/

/-- A document returned by the retriever. -/
structure Document where
  page_content : String

/-- The model's reply: `response.content if hasattr(response, 'content')
else str(response)` — an optional `content` payload plus the raw string
form. -/
structure ModelResponse where
  content? : Option String
  raw : String

/-- The AI components produced by `setup_ai_components`: an optional chat
model and an optional retriever, each of which may raise (an `Except.error`)
when invoked. -/
structure AIConfig where
  model : Option (String → Except String ModelResponse)
  retriever : Option (String → Except String (List Document))

/-- `setup_ai_components` with nothing configured (missing keys or
dependencies). -/
def noAI : AIConfig := { model := none, retriever := none }

/-- Response extraction: the `content` field if present, else `str(response)`. -/
def extract_text (r : ModelResponse) : String :=
  match r.content? with
  | some c => c
  | none => r.raw

/-- The prompt built when no retriever is available. -/
def simple_prompt (question : String) : String :=
  "You are a helpful career counselor assistant. \nAnswer the following question about career guidance:\n\nQuestion: " ++
    question ++ "\n\nAnswer:"

/-- The prompt built from retrieved context. -/
def rag_prompt (context question : String) : String :=
  "You are a helpful and knowledgeable career counselor assistant.\nAnswer questions based on the context provided.\n\nContext:\n" ++
    context ++ "\n\nQuestion:\n" ++ question ++ "\n\nAnswer:"

/-- The fixed unavailability message returned when no model is configured. -/
def unavailable_msg : String :=
  "AI service is not available. Please check your API keys and dependencies."

/-- The fixed apologetic text returned when the try-block catches a fault. -/
def apology_msg : String :=
  "I apologize, but I\x27m having trouble processing your question. Please try again."

/-- The body of the `try` block of `get_ai_response`: retrieval (when
available), prompt construction and model invocation; any raised fault
propagates as an `Except.error`. -/
def try_get_answer (model : String → Except String ModelResponse)
    (retriever : Option (String → Except String (List Document)))
    (question : String) : Except String String :=
  match retriever with
  | none => (model (simple_prompt question)).map extract_text
  | some retr =>
    match retr question with
    | Except.error e => Except.error e
    | Except.ok docs =>
      let context := String.intercalate "\n\n" (docs.map (fun d => d.page_content))
      (model (rag_prompt context question)).map extract_text

/-- `get_ai_response`: fixed unavailability message when no model is
configured; otherwise the try-block's answer, with any caught fault
converted to the fixed apology. -/
def get_ai_response (cfg : AIConfig) (question : String) : String :=
  match cfg.model with
  | none => unavailable_msg
  | some model =>
    match try_get_answer model cfg.retriever question with
    | Except.ok answer => answer
    | Except.error _ => apology_msg

/-- The Flask session cookie: the keys this application stores
(`user_id`, `username`, `full_name`, `session_id`), each absent until set. -/
structure Cookie where
  user_id : Option Nat := none
  username : Option String := none
  full_name : Option String := none
  session_id : Option String := none
deriving DecidableEq

/-- A fresh (unauthenticated) session cookie. -/
def emptyCookie : Cookie := {}

/-- Outcome of the POST branch of the `signup` route. -/
inductive SignupResult where
  | redirectDashboard
  | formError (message : String)
deriving DecidableEq

/-- The POST branch of `/signup` (with the real database available):
create the user; on a truthy new id store `user_id`, `username` and
`full_name` in the cookie and redirect; otherwise re-render with the
duplicate error. -/
def signup (username email password full_name : String) (ck : Cookie) (db : DB) :
    SignupResult × Cookie × DB :=
  match CareerCounselingDB.create_user username email password full_name "" db with
  | (user_id?, db') =>
    if pyTruthyNat user_id? then
      (SignupResult.redirectDashboard,
       { ck with user_id := user_id?, username := some username,
                 full_name := some full_name },
       db')
    else
      (SignupResult.formError "Username or email already exists", ck, db')

/-- Outcome of the POST branch of the `login` route. -/
inductive LoginResult where
  | redirectDashboard
  | formError (message : String)
deriving DecidableEq

/-- The POST branch of `/login` (with the real database available): verify
the credentials; on success store the user's id, username and full name
(falling back to the username when the stored full name is falsy), then
reuse the most recently updated existing chat session or create a new one,
and store its id. -/
def login (username password : String) (ck : Cookie) (db : DB) :
    LoginResult × Cookie × DB :=
  match CareerCounselingDB.verify_user username password db with
  | some user =>
    let full_name := if user.full_name = "" then user.username else user.full_name
    let ck1 : Cookie :=
      { ck with user_id := some user.id, username := some user.username,
                full_name := some full_name }
    match CareerCounselingDB.get_user_sessions user.id db with
    | s :: _ =>
      (LoginResult.redirectDashboard, { ck1 with session_id := some s.session_id }, db)
    | [] =>
      match CareerCounselingDB.create_session user.id "Career Counseling Session" db with
      | (sid, db') =>
        (LoginResult.redirectDashboard, { ck1 with session_id := some sid }, db')
  | none => (LoginResult.formError "Invalid username or password", ck, db)

/-- Outcome of a POST to `/api/chat`. -/
inductive ChatApiResult where
  | notAuthenticated
  | emptyMessage
  | ok (response : String) (session_id : Option String)
deriving DecidableEq

/-- HTTP status code of a `/api/chat` outcome. -/
def ChatApiResult.status : ChatApiResult → Nat
  | ChatApiResult.notAuthenticated => 401
  | ChatApiResult.emptyMessage => 400
  | ChatApiResult.ok _ _ => 200

/-- The JSON error body of a `/api/chat` outcome, when it is an error. -/
def ChatApiResult.errorBody : ChatApiResult → Option String
  | ChatApiResult.notAuthenticated => some "Not authenticated"
  | ChatApiResult.emptyMessage => some "Message is empty"
  | ChatApiResult.ok _ _ => none

/-- `/api/chat` (with the real database available): 401 without a
`user_id` in the cookie; strip the message and reject a blank one with
400; otherwise persist the user message, compute the answer, persist it,
and return both answer and the cookie's session id. -/
def api_chat (cfg : AIConfig) (ck : Cookie) (body_message : String) (db : DB) :
    ChatApiResult × DB :=
  match ck.user_id with
  | none => (ChatApiResult.notAuthenticated, db)
  | some user_id =>
    let user_message := pyStrip body_message
    if user_message = "" then (ChatApiResult.emptyMessage, db)
    else
      let session_id := ck.session_id
      let db1 := CareerCounselingDB.save_message session_id user_id "user" user_message db
      let ai_response := get_ai_response cfg user_message
      let db2 := CareerCounselingDB.save_message session_id user_id "assistant" ai_response db1
      (ChatApiResult.ok ai_response session_id, db2)

/-! ### Round-trip of the interests serialization -/

theorem skip_ws_cons_not_ws (c : Char) (cs : List Char) (h : json_ws c = false) :
    skip_ws (c :: cs) = c :: cs := by
  simp [skip_ws, List.dropWhile_cons, h]

theorem skip_ws_cons_ws (c : Char) (cs : List Char) (h : json_ws c = true) :
    skip_ws (c :: cs) = skip_ws cs := by
  simp [skip_ws, List.dropWhile_cons, h]

theorem psb_quote (t : List Char) : parse_string_body ('"' :: t) = some ([], t) := by
  rw [parse_string_body.eq_def]; simp

theorem psb_escape (e d : Char) (t : List Char) (h : unescape_char e = some d) :
    parse_string_body ('\\' :: e :: t) = (parse_string_body t).map (fun p => (d :: p.1, p.2)) := by
  rw [parse_string_body.eq_def]; simp [h]

theorem psb_lit (c : Char) (t : List Char) (h1 : ¬ c = '"') (h2 : ¬ c = '\\') :
    parse_string_body (c :: t) = (parse_string_body t).map (fun p => (c :: p.1, p.2)) := by
  rw [parse_string_body.eq_def]; simp [h1, h2]

theorem parse_string_body_encode (cs rest : List Char) :
    parse_string_body (encode_chars cs ++ '"' :: rest) = some (cs, rest) := by
  induction cs with
  | nil => simpa [encode_chars] using psb_quote rest
  | cons c cs ih =>
    have hesc : encode_chars (c :: cs) ++ '"' :: rest
        = escape_char c ++ (encode_chars cs ++ '"' :: rest) := by
      simp [encode_chars]
    rw [hesc]
    by_cases h1 : c = '"'
    · subst h1
      rw [show escape_char '"' = ['\\', '"'] by rw [escape_char]; simp]
      simp only [List.cons_append, List.nil_append]
      rw [psb_escape '"' '"' _ (by rw [unescape_char]; simp), ih]
      rfl
    by_cases h2 : c = '\\'
    · subst h2
      rw [show escape_char '\\' = ['\\', '\\'] by rw [escape_char]; simp]
      simp only [List.cons_append, List.nil_append]
      rw [psb_escape '\\' '\\' _ (by rw [unescape_char]; simp), ih]
      rfl
    by_cases h3 : c = '\n'
    · subst h3
      rw [show escape_char '\n' = ['\\', 'n'] by rw [escape_char]; simp]
      simp only [List.cons_append, List.nil_append]
      rw [psb_escape 'n' '\n' _ (by rw [unescape_char]; simp), ih]
      rfl
    by_cases h4 : c = '\t'
    · subst h4
      rw [show escape_char '\t' = ['\\', 't'] by rw [escape_char]; simp]
      simp only [List.cons_append, List.nil_append]
      rw [psb_escape 't' '\t' _ (by rw [unescape_char]; simp), ih]
      rfl
    by_cases h5 : c = '\r'
    · subst h5
      rw [show escape_char '\r' = ['\\', 'r'] by rw [escape_char]; simp]
      simp only [List.cons_append, List.nil_append]
      rw [psb_escape 'r' '\r' _ (by rw [unescape_char]; simp), ih]
      rfl
    by_cases h6 : c = '\x08'
    · subst h6
      rw [show escape_char '\x08' = ['\\', 'b'] by rw [escape_char]; simp]
      simp only [List.cons_append, List.nil_append]
      rw [psb_escape 'b' '\x08' _ (by rw [unescape_char]; simp), ih]
      rfl
    by_cases h7 : c = '\x0c'
    · subst h7
      rw [show escape_char '\x0c' = ['\\', 'f'] by rw [escape_char]; simp]
      simp only [List.cons_append, List.nil_append]
      rw [psb_escape 'f' '\x0c' _ (by rw [unescape_char]; simp), ih]
      rfl
    · rw [show escape_char c = [c] by rw [escape_char]; simp [h1, h2, h3, h4, h5, h6, h7]]
      simp only [List.cons_append, List.nil_append]
      rw [psb_lit c _ h1 h2, ih]
      rfl

theorem pri_close (fuel : Nat) (rest : List Char) :
    parse_rest_items fuel (']' :: rest) = some ([], rest) := by
  rw [parse_rest_items, skip_ws_cons_not_ws _ _ (by decide)]
  simp

theorem parse_rest_items_encode (ss : List String) (rest : List Char) :
    ∀ fuel, ss.length ≤ fuel →
      parse_rest_items fuel (encode_tail ss ++ ']' :: rest) = some (ss, rest) := by
  induction ss with
  | nil =>
    intro fuel _
    have h : encode_tail [] ++ ']' :: rest = ']' :: rest := by simp [encode_tail]
    rw [h, pri_close]
  | cons s ss ih =>
    intro fuel hf
    obtain ⟨n, rfl⟩ : ∃ n, fuel = n + 1 := ⟨fuel - 1, by simp at hf; omega⟩
    have hlen : ss.length ≤ n := by simp at hf; omega
    have harr : encode_tail (s :: ss) ++ ']' :: rest
        = ',' :: ' ' :: ('"' :: (encode_chars s.data ++ '"' :: (encode_tail ss ++ ']' :: rest))) := by
      simp [encode_tail, encode_item]
    have w1 : json_ws ',' = false := by decide
    have w2 : json_ws ' ' = true := by decide
    have w3 : json_ws '"' = false := by decide
    rw [harr, parse_rest_items, skip_ws_cons_not_ws _ _ w1]
    simp [skip_ws_cons_ws _ _ w2, skip_ws_cons_not_ws _ _ w3,
          parse_string_body_encode, ih n hlen]

theorem length_le_encode_tail (ss : List String) : ss.length ≤ (encode_tail ss).length := by
  induction ss with
  | nil => simp [encode_tail]
  | cons s ss ih => simp [encode_tail]; omega

theorem json_loads_dumps (l : List String) : json_loads_strings (json_dumps l) = some l := by
  cases l with
  | nil => decide
  | cons s ss =>
    have hdata : (json_dumps (s :: ss)).data
        = '[' :: ('"' :: (encode_chars s.data ++ '"' :: (encode_tail ss ++ ']' :: []))) := by
      simp [json_dumps, encode_item]
    have w3 : json_ws '"' = false := by decide
    rw [json_loads_strings, hdata]
    simp [skip_ws_cons_not_ws _ _ w3, parse_string_body_encode]
    rw [parse_rest_items_encode ss [] _ (by have := length_le_encode_tail ss; omega)]
    simp [skip_ws]

theorem json_dumps_ne_empty (l : List String) : json_dumps l ≠ "" := by
  intro h
  have h2 := congrArg String.data h
  cases l <;> simp [json_dumps] at h2

theorem load_interests_dumps (l : List String) :
    load_interests (some (json_dumps l)) = l := by
  simp [load_interests, json_dumps_ne_empty, json_loads_dumps]

/-! ### Well-formedness of reachable database states -/

open CareerCounselingDB

/-- Invariant of database states the application reaches: the AUTOINCREMENT
counter is at least 1 (rowids are positive), every stored timestamp is in
the past of the logical clock, the message table is in timestamp order
(append-only under a monotone clock), and session ids are unique (primary
key, drawn freshly). -/
def DB.WF (db : DB) : Prop :=
  1 ≤ db.next_user_id ∧
  (∀ m ∈ db.messages, m.timestamp < db.now) ∧
  (∀ s ∈ db.sessions, s.updated_at < db.now) ∧
  List.Sorted tsLe db.messages ∧
  (db.sessions.map (fun s => s.session_id)).Nodup

instance (db : DB) : Decidable db.WF := by
  unfold DB.WF
  infer_instance


/-- C1: For every username and email not already present in the user
store and any password, full name and phone, `create_user` returns a
positive user identifier, and a subsequent `verify_user` with the same
username and password returns the created user rather than `None`. -/
theorem create_user_then_verify (un em pw fn ph : String) (db : DB)
    (hWF : db.WF)
    (hfresh : ∀ u ∈ db.users, u.username ≠ un ∧ u.email ≠ em) :
    ∃ uid, (create_user un em pw fn ph db).1 = some uid ∧ 0 < uid ∧
      ∃ v, verify_user un pw (create_user un em pw fn ph db).2 = some v ∧
        v.id = uid ∧ v.username = un ∧ v.email = em ∧ v.full_name = fn ∧
        v.phone_number = ph := by
  have hany : db.users.any (fun u => u.username == un || u.email == em) = false := by
    simp only [List.any_eq_false]
    intro u hu
    simp [(hfresh u hu).1, (hfresh u hu).2]
  refine ⟨db.next_user_id, ?_, ?_, ?_⟩
  · simp [create_user, hany]
  · exact hWF.1
  · have hfind : db.users.find?
        (fun u => u.username == un && u.password_hash == hash_password pw) = none := by
      simp only [List.find?_eq_none]
      intro u hu
      simp [(hfresh u hu).1]
    have hv : verify_user un pw (create_user un em pw fn ph db).2 =
        some (userView
          (User.mk db.next_user_id un em (hash_password pw) fn ph none none db.now)) := by
      simp [create_user, hany, create_session, verify_user, List.find?_append, hfind]
    exact ⟨_, hv, rfl, rfl, rfl, rfl, rfl⟩

theorem create_user_then_verify_witness :
    ∃ uid, (create_user "alice" "a@x.com" "pw" "Alice" "" emptyDB).1 = some uid ∧ 0 < uid ∧
      ∃ v, verify_user "alice" "pw" (create_user "alice" "a@x.com" "pw" "Alice" "" emptyDB).2 = some v ∧
        v.id = uid ∧ v.username = "alice" ∧ v.email = "a@x.com" ∧ v.full_name = "Alice" ∧
        v.phone_number = "" :=
  create_user_then_verify "alice" "a@x.com" "pw" "Alice" "" emptyDB (by decide) (by decide)

/-- C4: A signup attempt whose username or email already exists returns
no identifier and leaves the database (in particular the stored users)
unchanged. -/
theorem create_user_duplicate (un em pw fn ph : String) (db : DB)
    (hdup : ∃ u ∈ db.users, u.username = un ∨ u.email = em) :
    (create_user un em pw fn ph db).1 = none ∧
    (create_user un em pw fn ph db).2 = db ∧
    (create_user un em pw fn ph db).2.users.length = db.users.length := by
  obtain ⟨u, hu, hcase⟩ := hdup
  have hany : db.users.any (fun u => u.username == un || u.email == em) = true := by
    refine List.any_eq_true.mpr ⟨u, hu, ?_⟩
    rcases hcase with h | h <;> simp [h]
  refine ⟨?_, ?_, ?_⟩ <;> simp [create_user, hany]

theorem create_user_duplicate_witness :
    (create_user "alice" "b@y.com" "pw2" "" ""
        (create_user "alice" "a@x.com" "pw" "Alice" "" emptyDB).2).1 = none ∧
    (create_user "alice" "b@y.com" "pw2" "" ""
        (create_user "alice" "a@x.com" "pw" "Alice" "" emptyDB).2).2 =
      (create_user "alice" "a@x.com" "pw" "Alice" "" emptyDB).2 ∧
    (create_user "alice" "b@y.com" "pw2" "" ""
        (create_user "alice" "a@x.com" "pw" "Alice" "" emptyDB).2).2.users.length =
      (create_user "alice" "a@x.com" "pw" "Alice" "" emptyDB).2.users.length :=
  create_user_duplicate "alice" "b@y.com" "pw2" "" "" _ (by decide)

/-- Appending a message later than every element keeps the store sorted by timestamp. -/
theorem sorted_append_singleton {l : List ChatMessage} {m : ChatMessage}
    (hl : List.Sorted tsLe l) (hm : ∀ x ∈ l, x.timestamp ≤ m.timestamp) :
    List.Sorted tsLe (l ++ [m]) := by
  show List.Pairwise tsLe (l ++ [m])
  rw [List.pairwise_append]
  refine ⟨hl, List.pairwise_singleton _ _, fun a ha b hb => ?_⟩
  simp only [List.mem_singleton] at hb
  subst hb
  exact hm a ha

/-- C2: `save_message` followed by `get_chat_history` for that session and
user returns the old history with the new message appended (same role tag
and text), and every previously saved message has a strictly earlier
timestamp, so the new message is ordered after all of them. -/
theorem save_message_then_history (sid : String) (uid : Nat) (role text : String)
    (db : DB) (hWF : db.WF) :
    get_chat_history (some sid) uid (save_message (some sid) uid role text db)
      = get_chat_history (some sid) uid db ++ [MessageView.mk role text db.now] ∧
    ∀ v ∈ get_chat_history (some sid) uid db, v.timestamp < db.now := by
  obtain ⟨-, hmsg, -, hsorted, -⟩ := hWF
  have hfs : List.Sorted tsLe
      (db.messages.filter (fun m => sqlEq m.session_id (some sid) && m.user_id == uid)) :=
    List.Pairwise.sublist (List.filter_sublist _) hsorted
  constructor
  · have e1 : get_chat_history (some sid) uid (save_message (some sid) uid role text db)
        = (((db.messages.filter (fun m => sqlEq m.session_id (some sid) && m.user_id == uid))
            ++ [ChatMessage.mk db.next_message_id (some sid) uid role text db.now]).insertionSort
              tsLe).map msgView := by
      simp [get_chat_history, save_message, List.filter_append, sqlEq]
    have hall : ∀ x ∈ db.messages.filter
        (fun m => sqlEq m.session_id (some sid) && m.user_id == uid),
        x.timestamp ≤ (ChatMessage.mk db.next_message_id (some sid) uid role text db.now).timestamp := by
      intro x hx
      exact Nat.le_of_lt (hmsg x (List.mem_of_mem_filter hx))
    have hs2 := sorted_append_singleton hfs hall
    rw [e1, List.Sorted.insertionSort_eq hs2, List.map_append]
    simp [get_chat_history, List.Sorted.insertionSort_eq hfs, msgView]
  · intro v hv
    simp only [get_chat_history, List.mem_map, List.mem_insertionSort, List.mem_filter] at hv
    obtain ⟨x, ⟨hxmem, hxp⟩, rfl⟩ := hv
    exact hmsg x hxmem

/-- The head of the descending sort is the element with the strictly greatest key. -/
theorem head_insertionSort_unique_max {l : List ChatSession} {m : ChatSession}
    (hm : m ∈ l) (hmax : ∀ x ∈ l, x ≠ m → x.updated_at < m.updated_at) :
    (l.insertionSort updGe).head? = some m := by
  cases hL : l.insertionSort updGe with
  | nil =>
    exfalso
    have hmem := (List.mem_insertionSort updGe).mpr hm
    rw [hL] at hmem
    simp at hmem
  | cons h t =>
    have hsorted := List.sorted_insertionSort updGe l
    rw [hL] at hsorted
    have hhmem : h ∈ l := by
      have hh : h ∈ l.insertionSort updGe := by
        rw [hL]; exact List.mem_cons_self _ _
      exact (List.mem_insertionSort updGe).mp hh
    have hmem' : m ∈ h :: t := by
      rw [← hL]
      exact (List.mem_insertionSort updGe).mpr hm
    rcases List.mem_cons.mp hmem' with heq | hmt
    · simp [heq]
    · by_cases hhm : h = m
      · simp [hhm]
      · exfalso
        have hlt := hmax h hhmem hhm
        have hrel : m.updated_at ≤ h.updated_at := List.rel_of_sorted_cons hsorted m hmt
        omega

/-- The session-bump of `save_message` commutes with filtering by owner (it never changes `user_id`). -/
theorem filter_user_map_bump (uid t : Nat) (c : ChatSession → Bool) (l : List ChatSession) :
    (l.map (fun s => if c s then { s with updated_at := t } else s)).filter
        (fun s => s.user_id == uid)
    = (l.filter (fun s => s.user_id == uid)).map
        (fun s => if c s then { s with updated_at := t } else s) := by
  rw [List.filter_map]
  congr 1
  apply List.filter_congr
  intro a _
  by_cases h : c a <;> simp [h]

/-- C3: `get_user_sessions` returns the user's own sessions (each entry
arises from a stored session row of that user), ordered by `updated_at`
descending, and after `save_message` on one of the user's existing sessions
that session is the first element of the returned list (its `updated_at`
having been bumped to the current time). -/
theorem get_user_sessions_sorted_bump (uid : Nat) (sid : String) (role text : String)
    (db : DB) :
    List.Sorted (fun a b : SessionView => b.updated_at ≤ a.updated_at)
      (get_user_sessions uid db) ∧
    (∀ v ∈ get_user_sessions uid db, ∃ s ∈ db.sessions, s.user_id = uid ∧
      v = SessionView.mk s.session_id s.session_name s.created_at s.updated_at) ∧
    (db.WF → ∀ s0 ∈ db.sessions, s0.session_id = sid → s0.user_id = uid →
      (get_user_sessions uid (save_message (some sid) uid role text db)).head? =
        some (SessionView.mk sid s0.session_name s0.created_at db.now)) := by
  refine ⟨?_, ?_, ?_⟩
  · apply List.Pairwise.map
    · intro a b hab
      exact hab
    · exact List.sorted_insertionSort updGe _
  · intro v hv
    simp only [get_user_sessions, List.mem_map, List.mem_insertionSort, List.mem_filter] at hv
    obtain ⟨x, ⟨hmem, hpx⟩, rfl⟩ := hv
    exact ⟨x, hmem, by simpa using hpx, rfl⟩
  · rintro ⟨-, -, hsess, -, hnodup⟩ s0 hs0 rfl hu0
    have e1 : (save_message (some s0.session_id) uid role text db).sessions.filter
          (fun s => s.user_id == uid)
        = (db.sessions.filter (fun s => s.user_id == uid)).map
            (fun s => if sqlEqVal (some s0.session_id) s.session_id then
              { s with updated_at := db.now } else s) :=
      filter_user_map_bump uid db.now
        (fun s => sqlEqVal (some s0.session_id) s.session_id) db.sessions
    have hs0f : s0 ∈ db.sessions.filter (fun s => s.user_id == uid) := by
      rw [List.mem_filter]
      exact ⟨hs0, by simp [hu0]⟩
    have hcond0 : sqlEqVal (some s0.session_id) s0.session_id = true := by
      simp [sqlEqVal]
    have hm : ({ s0 with updated_at := db.now } : ChatSession)
        ∈ (db.sessions.filter (fun s => s.user_id == uid)).map
            (fun s => if sqlEqVal (some s0.session_id) s.session_id then
              { s with updated_at := db.now } else s) := by
      refine List.mem_map.mpr ⟨s0, hs0f, ?_⟩
      rw [hcond0]
      simp
    have hmax : ∀ x ∈ (db.sessions.filter (fun s => s.user_id == uid)).map
            (fun s => if sqlEqVal (some s0.session_id) s.session_id then
              { s with updated_at := db.now } else s),
        x ≠ ({ s0 with updated_at := db.now } : ChatSession) →
        x.updated_at < ({ s0 with updated_at := db.now } : ChatSession).updated_at := by
      intro x hx hne
      obtain ⟨s, hsf, rfl⟩ := List.mem_map.mp hx
      by_cases hc : sqlEqVal (some s0.session_id) s.session_id = true
      · exfalso
        have hsid : s0.session_id = s.session_id := by
          simpa [sqlEqVal] using hc
        have hseq : s = s0 :=
          List.inj_on_of_nodup_map hnodup (List.mem_of_mem_filter hsf) hs0 hsid.symm
        rw [hc] at hne
        simp [hseq] at hne
      · rw [Bool.not_eq_true] at hc
        rw [hc]
        simp only [if_neg]
        show s.updated_at < _
        have := hsess s (List.mem_of_mem_filter hsf)
        simpa using this
    have hhead := head_insertionSort_unique_max hm hmax
    show ((((save_message (some s0.session_id) uid role text db).sessions.filter
        (fun s => s.user_id == uid)).insertionSort updGe).map _).head? = _
    rw [e1, List.head?_map, hhead]
    rfl

/-- C9: `update_user_profile` with any list of interest tags followed by
`get_user_by_id` returns exactly that list: the `json.dumps` text form
round-trips through `json.loads`. -/
theorem update_profile_then_get (uid : Nat) (bg : String) (ints : List String) (db : DB)
    (hmem : ∃ u ∈ db.users, u.id = uid) :
    ∃ v, get_user_by_id uid (update_user_profile uid bg ints db) = some v ∧
      v.interests = ints ∧ v.educational_background = some bg := by
  have hsome : (db.users.find? (fun u => u.id == uid)).isSome := by
    rw [List.find?_isSome]
    obtain ⟨u, hu, hid⟩ := hmem
    exact ⟨u, hu, by simp [hid]⟩
  obtain ⟨u0, hfind⟩ := Option.isSome_iff_exists.mp hsome
  have hp0 : u0.id = uid := by
    have := List.find?_some hfind
    simpa using this
  have hcomp : ((fun u : User => u.id == uid) ∘
      (fun u : User => if u.id == uid then { u with educational_background := some bg, interests := some (json_dumps ints) } else u))
      = (fun u : User => u.id == uid) := by
    funext u
    by_cases h : u.id == uid <;> simp_all
  have e1 : get_user_by_id uid (update_user_profile uid bg ints db)
      = ((db.users.find? (fun u => u.id == uid)).map
          (fun u : User => if u.id == uid then { u with educational_background := some bg, interests := some (json_dumps ints) } else u)).map userView := by
    show ((db.users.map
        (fun u : User => if u.id == uid then { u with educational_background := some bg, interests := some (json_dumps ints) } else u)).find?
          (fun u => u.id == uid)).map userView = _
    rw [List.find?_map, hcomp]
  refine ⟨userView { u0 with educational_background := some bg, interests := some (json_dumps ints) }, ?_, ?_, rfl⟩
  · rw [e1, hfind]
    simp [hp0]
  · show load_interests (some (json_dumps ints)) = ints
    exact load_interests_dumps ints

/-- C10: every entry returned by `get_chat_history` arises from a stored
message whose owning user id equals the queried user id (and whose session
id matches), so one user never receives another user's messages. -/
theorem get_chat_history_user_scoped (sid? : Option String) (uid : Nat) (db : DB) :
    ∀ v ∈ get_chat_history sid? uid db,
      ∃ m ∈ db.messages, m.user_id = uid ∧ sqlEq m.session_id sid? = true ∧ v = msgView m := by
  intro v hv
  simp only [get_chat_history, List.mem_map, List.mem_insertionSort, List.mem_filter] at hv
  obtain ⟨x, ⟨hmem, hp⟩, rfl⟩ := hv
  rw [Bool.and_eq_true] at hp
  refine ⟨x, hmem, ?_, hp.1, rfl⟩
  simpa using hp.2

/-- Stripping a whitespace-only string yields the empty string. -/
theorem all_whitespace_strip (s : String) (h : s.data.all Char.isWhitespace) :
    pyStrip s = "" := by
  have h1 : s.data.dropWhile Char.isWhitespace = [] := by
    rw [List.dropWhile_eq_nil_iff]
    intro x hx
    exact List.all_eq_true.mp h x hx
  unfold pyStrip
  rw [h1]
  rfl

/-- C5: an authenticated POST to `/api/chat` whose message is empty or
whitespace-only returns status 400 with a JSON error body and persists no
chat message (the database is returned unchanged). -/
theorem api_chat_empty_message (cfg : AIConfig) (ck : Cookie) (msg : String) (db : DB)
    (uid : Nat) (hauth : ck.user_id = some uid)
    (hws : msg.data.all Char.isWhitespace) :
    api_chat cfg ck msg db = (ChatApiResult.emptyMessage, db) ∧
    (api_chat cfg ck msg db).1.status = 400 ∧
    (api_chat cfg ck msg db).1.errorBody = some "Message is empty" ∧
    (api_chat cfg ck msg db).2.messages = db.messages := by
  have hstrip : pyStrip msg = "" := all_whitespace_strip msg hws
  have e : api_chat cfg ck msg db = (ChatApiResult.emptyMessage, db) := by
    unfold api_chat
    rw [hauth]
    simp [hstrip]
  exact ⟨e, by rw [e]; rfl, by rw [e]; rfl, by rw [e]⟩

/-- C6: the answer generator is total: with no model configured it returns
the fixed unavailability message; when the invocation (retrieval included)
raises, the fault is caught and the fixed apologetic text returned; and a
successful invocation returns the extracted answer — in all cases a string,
never a propagated fault. -/
theorem get_ai_response_total (cfg : AIConfig) (q : String) :
    (cfg.model = none → get_ai_response cfg q = unavailable_msg) ∧
    (∀ model, cfg.model = some model →
      (∀ e, try_get_answer model cfg.retriever q = Except.error e →
        get_ai_response cfg q = apology_msg) ∧
      (∀ ans, try_get_answer model cfg.retriever q = Except.ok ans →
        get_ai_response cfg q = ans)) := by
  refine ⟨fun h => by simp [get_ai_response, h], fun m hm => ⟨fun e he => ?_, fun a ha => ?_⟩⟩
  · simp [get_ai_response, hm, he]
  · simp [get_ai_response, hm, ha]

/-- An AI configuration whose model raises on every invocation. -/
def errAI : AIConfig :=
  { model := some (fun _ => Except.error "model failure"), retriever := none }

theorem get_ai_response_total_witness :
    get_ai_response noAI "What can I do?" = unavailable_msg ∧
    get_ai_response errAI "What can I do?" = apology_msg :=
  ⟨(get_ai_response_total noAI "What can I do?").1 rfl,
   ((get_ai_response_total errAI "What can I do?").2
      (fun _ => Except.error "model failure") rfl).1 "model failure" rfl⟩

/-- A truthy optional integer is present. -/
theorem isSome_of_pyTruthyNat {x : Option Nat} (h : pyTruthyNat x = true) : x.isSome := by
  cases x <;> simp [pyTruthyNat] at h ⊢

/-- C8 (amended): after a successful login the session cookie holds all
four authenticated-state fields; after a successful signup it holds the
user id, username and full name, but the chat session id is left untouched
(absent for a fresh cookie). -/
theorem auth_cookie_fields (un pw : String) (ck : Cookie) (db : DB) :
    ((login un pw ck db).1 = LoginResult.redirectDashboard →
      ((login un pw ck db).2.1.user_id.isSome ∧ (login un pw ck db).2.1.username.isSome ∧
       (login un pw ck db).2.1.full_name.isSome ∧ (login un pw ck db).2.1.session_id.isSome)) ∧
    (∀ em fn, (signup un em pw fn ck db).1 = SignupResult.redirectDashboard →
      ((signup un em pw fn ck db).2.1.user_id.isSome ∧
       (signup un em pw fn ck db).2.1.username = some un ∧
       (signup un em pw fn ck db).2.1.full_name = some fn ∧
       (signup un em pw fn ck db).2.1.session_id = ck.session_id)) := by
  constructor
  · cases hv : verify_user un pw db with
    | none => intro h; simp [login, hv] at h
    | some user =>
      intro _
      cases hs : get_user_sessions user.id db with
      | nil => simp [login, hv, hs]
      | cons s rest => simp [login, hv, hs]
  · intro em fn h
    by_cases hd : pyTruthyNat (create_user un em pw fn "" db).1
    · refine ⟨?_, ?_, ?_, ?_⟩ <;> simp [signup, hd]
      exact isSome_of_pyTruthyNat hd
    · simp [signup, hd] at h

theorem save_message_then_history_witness :
    (get_chat_history (some "s1") 1
        (save_message (some "s1") 1 "assistant" "reply"
          (save_message (some "s1") 1 "user" "hello" emptyDB))
      = get_chat_history (some "s1") 1 (save_message (some "s1") 1 "user" "hello" emptyDB) ++
          [MessageView.mk "assistant" "reply"
            (save_message (some "s1") 1 "user" "hello" emptyDB).now]) ∧
    ∀ v ∈ get_chat_history (some "s1") 1 (save_message (some "s1") 1 "user" "hello" emptyDB),
      v.timestamp < (save_message (some "s1") 1 "user" "hello" emptyDB).now :=
  save_message_then_history "s1" 1 "assistant" "reply"
    (save_message (some "s1") 1 "user" "hello" emptyDB) (by decide)

theorem get_user_sessions_sorted_bump_witness :
    List.Sorted (fun a b : SessionView => b.updated_at ≤ a.updated_at)
      (get_user_sessions 1 (create_session 1 "Career Counseling Session" emptyDB).2) ∧
    (∀ v ∈ get_user_sessions 1 (create_session 1 "Career Counseling Session" emptyDB).2,
      ∃ s ∈ (create_session 1 "Career Counseling Session" emptyDB).2.sessions,
        s.user_id = 1 ∧
        v = SessionView.mk s.session_id s.session_name s.created_at s.updated_at) ∧
    (get_user_sessions 1 (save_message (some "uuid-1") 1 "user" "hi"
        (create_session 1 "Career Counseling Session" emptyDB).2)).head? =
      some (SessionView.mk "uuid-1"
        (ChatSession.mk "uuid-1" 1 "Career Counseling Session" 0 0).session_name
        (ChatSession.mk "uuid-1" 1 "Career Counseling Session" 0 0).created_at
        (create_session 1 "Career Counseling Session" emptyDB).2.now) :=
  have h := get_user_sessions_sorted_bump 1 "uuid-1" "user" "hi"
    (create_session 1 "Career Counseling Session" emptyDB).2
  ⟨h.1, h.2.1, h.2.2 (by decide) (ChatSession.mk "uuid-1" 1 "Career Counseling Session" 0 0)
    (by decide) (by decide) (by decide)⟩

theorem api_chat_empty_message_witness :
    api_chat noAI (Cookie.mk (some 1) none none none) "   " emptyDB =
      (ChatApiResult.emptyMessage, emptyDB) ∧
    (api_chat noAI (Cookie.mk (some 1) none none none) "   " emptyDB).1.status = 400 ∧
    (api_chat noAI (Cookie.mk (some 1) none none none) "   " emptyDB).1.errorBody =
      some "Message is empty" ∧
    (api_chat noAI (Cookie.mk (some 1) none none none) "   " emptyDB).2.messages =
      emptyDB.messages :=
  api_chat_empty_message noAI (Cookie.mk (some 1) none none none) "   " emptyDB 1 rfl (by decide)

theorem update_profile_then_get_witness :
    ∃ v, get_user_by_id 1 (update_user_profile 1 "BSc Biology" ["ai", "medicine"]
        (create_user "alice" "a@x.com" "pw" "Alice" "" emptyDB).2) = some v ∧
      v.interests = ["ai", "medicine"] ∧ v.educational_background = some "BSc Biology" :=
  update_profile_then_get 1 "BSc Biology" ["ai", "medicine"]
    (create_user "alice" "a@x.com" "pw" "Alice" "" emptyDB).2 (by decide)

theorem get_chat_history_user_scoped_witness :
    ∃ m ∈ (save_message (some "s1") 1 "user" "hello" emptyDB).messages,
      m.user_id = 1 ∧ sqlEq m.session_id (some "s1") = true ∧
      MessageView.mk "user" "hello" 0 = msgView m :=
  get_chat_history_user_scoped (some "s1") 1 (save_message (some "s1") 1 "user" "hello" emptyDB)
    (MessageView.mk "user" "hello" 0) (by decide)

/-- The database reached by a fresh signup immediately followed by a POST
to `/api/chat` (no `/chat` page visit and no login in between). -/
def signup_then_chat_db : DB :=
  (api_chat noAI (signup "alice" "a@x.com" "pw" "Alice" emptyCookie emptyDB).2.1 "hi"
    (signup "alice" "a@x.com" "pw" "Alice" emptyCookie emptyDB).2.2).2

/-- C7: counter to the referential-integrity claim, the reachable state
after a successful signup immediately followed by `/api/chat` stores chat
messages whose session reference (NULL, since `signup` never writes
`session_id` into the cookie) matches no existing chat session. -/
theorem api_chat_after_signup_orphan :
    (signup "alice" "a@x.com" "pw" "Alice" emptyCookie emptyDB).1 =
      SignupResult.redirectDashboard ∧
    ∃ m ∈ signup_then_chat_db.messages,
      ¬ ∃ s ∈ signup_then_chat_db.sessions, some s.session_id = m.session_id := by
  decide

/-- C8 counterexample: a successful signup leaves no `session_id` in the
session cookie, so the cookie does not hold all four authenticated-state
fields. -/
theorem signup_cookie_missing_session_id :
    (signup "alice" "a@x.com" "pw" "Alice" emptyCookie emptyDB).1 =
      SignupResult.redirectDashboard ∧
    (signup "alice" "a@x.com" "pw" "Alice" emptyCookie emptyDB).2.1.user_id = some 1 ∧
    (signup "alice" "a@x.com" "pw" "Alice" emptyCookie emptyDB).2.1.session_id = none := by
  decide

theorem auth_cookie_fields_witness :
    ((login "alice" "pw" emptyCookie
        (create_user "alice" "a@x.com" "pw" "Alice" "" emptyDB).2).2.1.user_id.isSome ∧
     (login "alice" "pw" emptyCookie
        (create_user "alice" "a@x.com" "pw" "Alice" "" emptyDB).2).2.1.username.isSome ∧
     (login "alice" "pw" emptyCookie
        (create_user "alice" "a@x.com" "pw" "Alice" "" emptyDB).2).2.1.full_name.isSome ∧
     (login "alice" "pw" emptyCookie
        (create_user "alice" "a@x.com" "pw" "Alice" "" emptyDB).2).2.1.session_id.isSome) ∧
    ((signup "bob" "b@y.com" "pw2" "Bob" emptyCookie emptyDB).2.1.user_id.isSome ∧
     (signup "bob" "b@y.com" "pw2" "Bob" emptyCookie emptyDB).2.1.username = some "bob" ∧
     (signup "bob" "b@y.com" "pw2" "Bob" emptyCookie emptyDB).2.1.full_name = some "Bob" ∧
     (signup "bob" "b@y.com" "pw2" "Bob" emptyCookie emptyDB).2.1.session_id =
       emptyCookie.session_id) :=
  ⟨(auth_cookie_fields "alice" "pw" emptyCookie
      (create_user "alice" "a@x.com" "pw" "Alice" "" emptyDB).2).1 (by decide),
   (auth_cookie_fields "bob" "pw2" emptyCookie emptyDB).2 "b@y.com" "Bob" (by decide)⟩
